import Mathlib

/-!
# cobra_cli: the interactive SQLite shell of `main.go`

A shallow embedding of `main.go`.  The three package-level variables
(`selectDB`, `db`, `dbFilePath`) are fields of an explicit `World` that is
passed through every function.  Everything the program asks of the outside
(the operating system, the `database/sql` driver) is answered by an `Env`,
whose answers may depend on the whole history of the run; every interaction
is appended to `World.trace`, so that "was a database opened?" is a question
about the trace.  Lines typed by the user are `World.stdin`.

Go strings are Lean `String`s.  The standard-library functions the program
calls (`strings.TrimSpace`, `strings.HasSuffix`, `filepath.Ext`,
`filepath.Join`, `fmt.Sscanf` with the verb `%d`) are modelled on Unix from
their Go implementation.
-/

namespace CobraCli

/-! ## Go standard library -/

namespace unicode

/-- Go `unicode.IsSpace`: the code points with the White_Space property. -/
def IsSpace (c : Char) : Bool :=
  let n := c.toNat
  (0x09 ≤ n && n ≤ 0x0d) || n == 0x20 || n == 0x85 || n == 0xA0 || n == 0x1680 ||
    (0x2000 ≤ n && n ≤ 0x200a) || n == 0x2028 || n == 0x2029 || n == 0x202f ||
    n == 0x205f || n == 0x3000

end unicode

namespace strings

/-- Go `strings.TrimSpace`: all leading and trailing white space removed. -/
def TrimSpace (s : String) : String :=
  ⟨((s.data.dropWhile unicode.IsSpace).reverse.dropWhile unicode.IsSpace).reverse⟩

/-- Go `strings.HasSuffix`. -/
def HasSuffix (s suffix : String) : Bool :=
  suffix.data.isSuffixOf s.data

end strings

namespace filepath

/-- The loop of `filepath.Ext`, run over the path read backwards: `acc` is
the part of the path already passed.  It stops at the first dot (the
extension is the dot and what was passed) or at a separator (no extension). -/
def extScan : List Char → List Char → List Char
  | [], _ => []
  | c :: rest, acc =>
    if c = '/' then []
    else if c = '.' then c :: acc
    else extScan rest (c :: acc)

/-- Go `filepath.Ext`: the suffix beginning at the final dot in the final
element of the path, empty if there is no dot. -/
def Ext (path : String) : String :=
  ⟨extScan path.data.reverse []⟩

/-- The `..` case of `filepath.Clean` when it can backtrack, after `out.w--`:
the write index `w` moves down while it is above the mark `dotdot` and the
character of the buffer at `w` is not a separator.  The result is the new
write index. -/
def backtrack (buf : List Char) (dotdot : Nat) : Nat → Nat
  | 0 => 0
  | w + 1 =>
    if dotdot < w + 1 ∧ buf.get? (w + 1) ≠ some '/' then backtrack buf dotdot w
    else w + 1

/-- The buffer after a `..` element that can backtrack. -/
def dropElem (out : List Char) (dotdot : Nat) : List Char :=
  out.take (backtrack out dotdot (out.length - 1))

/-- The main loop of `filepath.Clean` for a path that is not rooted, one
character at a time.  `inElem` says that a real path element is being copied;
otherwise the reader stands at the start of an element.  `out` is the buffer
and `dotdot` the index up to which the buffer may not be backtracked. -/
def cleanLoop : List Char → Bool → List Char → Nat → List Char
  | [], _, out, _ => out
  | c :: rest, true, out, dotdot =>
    if c = '/' then cleanLoop rest false out dotdot
    else cleanLoop rest true (out ++ [c]) dotdot
  | '/' :: rest, false, out, dotdot => cleanLoop rest false out dotdot
  | ['.'], false, out, _ => out
  | '.' :: '/' :: rest, false, out, dotdot => cleanLoop rest false out dotdot
  | ['.', '.'], false, out, dotdot =>
    if dotdot < out.length then dropElem out dotdot
    else if out.length > 0 then out ++ ['/', '.', '.'] else out ++ ['.', '.']
  | '.' :: '.' :: '/' :: rest, false, out, dotdot =>
    if dotdot < out.length then
      cleanLoop rest false (dropElem out dotdot) dotdot
    else if out.length > 0 then
      cleanLoop rest false (out ++ ['/', '.', '.']) (out.length + 3)
    else cleanLoop rest false (out ++ ['.', '.']) (out.length + 2)
  | c :: rest, false, out, dotdot =>
    if out.length ≠ 0 then cleanLoop rest true (out ++ ['/', c]) dotdot
    else cleanLoop rest true (out ++ [c]) dotdot

/-- The main loop of `filepath.Clean` for a rooted path: the buffer starts
with the separator, which is never removed (`dotdot = 1`), and a `..` that
cannot backtrack is dropped. -/
def cleanLoopRooted : List Char → Bool → List Char → List Char
  | [], _, out => out
  | c :: rest, true, out =>
    if c = '/' then cleanLoopRooted rest false out
    else cleanLoopRooted rest true (out ++ [c])
  | '/' :: rest, false, out => cleanLoopRooted rest false out
  | ['.'], false, out => out
  | '.' :: '/' :: rest, false, out => cleanLoopRooted rest false out
  | ['.', '.'], false, out =>
    if 1 < out.length then dropElem out 1 else out
  | '.' :: '.' :: '/' :: rest, false, out =>
    if 1 < out.length then
      cleanLoopRooted rest false (dropElem out 1)
    else cleanLoopRooted rest false out
  | c :: rest, false, out =>
    if out.length ≠ 1 then cleanLoopRooted rest true (out ++ ['/', c])
    else cleanLoopRooted rest true (out ++ [c])

/-- Go `filepath.Clean` on Unix: the shortest path name equivalent to `path`
by purely lexical processing. -/
def Clean (path : String) : String :=
  match path.data with
  | [] => "."
  | '/' :: rest => ⟨cleanLoopRooted rest false ['/']⟩
  | c :: rest =>
    match cleanLoop (c :: rest) false [] 0 with
    | [] => "."
    | out => ⟨out⟩

/-- Go `filepath.Join` on Unix: empty leading elements are skipped, the rest
is joined with the separator and cleaned; no non-empty element gives the
empty string. -/
def Join : List String → String
  | [] => ""
  | e :: rest =>
    if e = "" then Join rest
    else Clean (rest.foldl (fun acc x => acc ++ "/" ++ x) e)

end filepath

namespace fmt

/-- The digits accepted by the verb `%d`. -/
def isDecimalDigit (c : Char) : Bool :=
  '0'.toNat ≤ c.toNat && c.toNat ≤ '9'.toNat

/-- The value of a run of decimal digits, most significant first. -/
def digitsValue (ds : List Char) : Nat :=
  ds.foldl (fun acc c => 10 * acc + (c.toNat - '0'.toNat)) 0

/-- The `SkipSpace` of a scan whose newlines are not white space (`Sscanf`):
white space is skipped, a carriage return directly before a newline is
skipped, and a newline is an error (`none`). -/
def skipSpace : List Char → Option (List Char)
  | [] => some []
  | c :: rest =>
    if c = '\r' ∧ rest.head? = some '\n' then skipSpace rest
    else if c = '\n' then none
    else if unicode.IsSpace c then skipSpace rest
    else some (c :: rest)

/-- The sign accepted before the digits: whether it is a minus, and the rest
of the input. -/
def acceptSign : List Char → Bool × List Char
  | '-' :: t => (true, t)
  | '+' :: t => (false, t)
  | t => (false, t)

/-- The number read after the sign: the longest run of decimal digits, which
must not be empty, read with `strconv.ParseInt(_, 10, 64)`; a value outside
the 64-bit range is an error. -/
def scanNumber (neg : Bool) (s : List Char) : Option Int :=
  let ds := s.takeWhile isDecimalDigit
  if ds = [] then none
  else if neg then
    if digitsValue ds ≤ 2 ^ 63 then some (-(digitsValue ds : Int)) else none
  else
    if digitsValue ds < 2 ^ 63 then some (digitsValue ds : Int) else none

/-- Go `fmt.Sscanf(input, "%d", &choice)` as the value stored in `choice`,
`none` when the scan fails (and `choice` keeps its value).  Leading white
space is skipped, one sign is accepted, then the number is read.  What
follows the digits is not looked at. -/
def SscanfInt (input : String) : Option Int :=
  match skipSpace input.data with
  | none => none
  | some s => scanNumber (acceptSign s).1 (acceptSign s).2

end fmt

/-! ## Data model -/

/-- A `*sql.DB` handle, identified by the data source it was opened on. -/
structure Conn where
  dsn : String
  deriving DecidableEq, Repr

/-- An entry of a directory listing (`os.DirEntry`): `Name()` and `IsDir()`. -/
structure DirEntry where
  name : String
  isDir : Bool
  deriving DecidableEq, Repr

/-- One row of `PRAGMA table_info`: `cid, name, type, notnull, dflt_value, pk`. -/
structure ColumnInfo where
  cid : Int
  name : String
  ctype : String
  notnull : Int
  dfltValue : Option String
  pk : Int
  deriving DecidableEq, Repr

/-- How the iteration over a `*sql.Rows` ends: all rows scanned, a failing
`rows.Scan`, or an error reported by `rows.Err()` after the last row. -/
inductive RowsEnd
  | done
  | scanError
  | rowsError
  deriving DecidableEq, Repr

/-- A successful `db.Query`: the rows that scan, and how the iteration ends. -/
structure Rows (α : Type) where
  rows : List α
  finish : RowsEnd
  deriving DecidableEq, Repr

/-- The error values built by `selectTable`. -/
inductive SelectError
  /-- Line 177: `нет доступных таблиц для выбора`. -/
  | noTables
  /-- Line 191: `некорректный выбор`. -/
  | invalidChoice
  deriving DecidableEq, Repr

/-- The error values built by `listTables` (lines 155, 163, 169). -/
inductive ListError
  | query
  | scan
  | rows
  deriving DecidableEq, Repr

/-- Everything the program writes to the terminal, by source line. -/
inductive Msg
  /-- Line 41: `Ошибка при создании директории`. -/
  | mkdirError
  /-- Line 45: `Введите имя новой базы данных: `. -/
  | askNewName
  /-- Line 56: `База данных с таким именем уже существует.`. -/
  | alreadyExists
  /-- Line 62: `Ошибка при создании базы данных`. -/
  | createOpenError
  /-- Line 69: `Ошибка при инициализации базы данных`. -/
  | initError
  /-- Line 73: `База данных '%s' успешно создана в директории '%s'.`. -/
  | created (dbName dir : String)
  /-- Line 80: `Ошибка при чтении директории`. -/
  | readDirError
  /-- Line 92: `Нет доступных баз данных в директории.`. -/
  | noDatabases
  /-- Line 96: `Выберите базу данных для подключения:`. -/
  | chooseDatabase
  /-- Lines 98 and 182: `[%d] %s`. -/
  | item (i : Nat) (text : String)
  /-- Line 102: `Введите номер базы данных для подключения: `. -/
  | askDatabaseNumber
  /-- Line 107: `Некорректный выбор.`. -/
  | invalidChoice
  /-- Line 112: `Подключение к базе данных: %s`. -/
  | connecting (path : String)
  /-- Line 116: `log.Fatalf("Ошибка при подключении к базе данных")`. -/
  | fatalOpen
  /-- Line 122: `log.Fatalf("Ошибка при проверке подключения")`. -/
  | fatalPing
  /-- Line 127: `Успешное подключение к базе данных.`. -/
  | connected
  /-- Line 134: `Ошибка при закрытии базы данных`. -/
  | closeError
  /-- Line 136: `Подключение к базе данных закрыто.`. -/
  | closed
  /-- Line 140: `Подключение к базе данных уже закрыто или не было установлено.`. -/
  | alreadyClosed
  /-- Line 180: `Список таблиц:`. -/
  | tableList
  /-- Line 186: `Введите номер таблицы для отображения её структуры: `. -/
  | askTableNumber
  /-- The heading of `printTableStructure` (lines 205 to 208). -/
  | structureHeader (tableName : String)
  /-- One line of `printTableStructure` (line 219). -/
  | structureRow (name ctype : String) (notnull pk : Int) (dflt : String)
  /-- The closing rule of `printTableStructure` (line 222). -/
  | structureRule
  /-- Line 232: `Вы подключились к SQLite`. -/
  | sqliteSelected
  /-- Lines 236 and 265: `Выход из программы.`. -/
  | exiting
  /-- Line 239: `Неизвестная команда:` followed by the input. -/
  | unknownCommand (cmd : String)
  /-- A line printed as it is (line 245). -/
  | line (text : String)
  /-- Line 251: `Ошибка при получении списка таблиц:`. -/
  | listTablesFailed (err : ListError)
  /-- Line 257: `Ошибка при выборе таблицы:`. -/
  | selectTableFailed (err : SelectError)
  /-- Line 262: `Ошибка при получении структуры таблицы:`. -/
  | structureFailed
  /-- Line 269: `Неизвестная команда для SQLite:` followed by the input. -/
  | unknownSqliteCommand (cmd : String)
  /-- Line 275: `Введите команды sqlite или exit`. -/
  | banner
  deriving DecidableEq, Repr

/-- The statement run by `createDatabase` (line 67). -/
def createTableStmt : String :=
  "CREATE TABLE IF NOT EXISTS test_table (id INTEGER PRIMARY KEY);"

/-- The query of `listTables` (line 152). -/
def listTablesQuery : String :=
  "SELECT name FROM sqlite_master WHERE type='table';"

/-- The query of `printTableStructure` (line 198). -/
def tableInfoQuery (tableName : String) : String :=
  "PRAGMA table_info(" ++ tableName ++ ");"

/-- One interaction of the program with the outside, with its result. -/
inductive Event
  /-- Output on the terminal. -/
  | print (m : Msg)
  /-- The call `prompt.Input` returned `text`. -/
  | input (text : String)
  /-- The call `os.MkdirAll(dir, os.ModePerm)`; `ok` is `err == nil`. -/
  | mkdirAll (dir : String) (ok : Bool)
  /-- The call `os.ReadDir(dir)`. -/
  | readDir (dir : String) (ok : Bool)
  /-- The call `os.Stat(path)`; `ok` is `err == nil`. -/
  | stat (path : String) (ok : Bool)
  /-- The call `sql.Open("sqlite3", path)`. -/
  | sqlOpen (path : String) (ok : Bool)
  /-- The call `c.Exec(stmt)`. -/
  | exec (c : Conn) (stmt : String) (ok : Bool)
  /-- The call `c.Ping()`. -/
  | ping (c : Conn) (ok : Bool)
  /-- The call `c.Query(query)`. -/
  | query (c : Conn) (query : String) (ok : Bool)
  /-- The call `c.Close()`. -/
  | close (c : Conn) (ok : Bool)
  deriving DecidableEq, Repr

/-- The outside of the program: the answer of every operating-system and
driver call, as a function of the history of the run so far (so that the
answers may change while the program runs) and of the call's arguments. -/
structure Env where
  /-- Whether `os.MkdirAll(dir, os.ModePerm)` succeeds. -/
  mkdirAll : List Event → String → Bool
  /-- The listing of `os.ReadDir(dir)`, `none` on error. -/
  readDir : List Event → String → Option (List DirEntry)
  /-- Whether `os.Stat(path)` returns a nil error. -/
  stat : List Event → String → Bool
  /-- Whether `sql.Open("sqlite3", path)` returns a nil error. -/
  sqlOpen : List Event → String → Bool
  /-- Whether `c.Exec(stmt)` returns a nil error. -/
  exec : List Event → Conn → String → Bool
  /-- Whether `c.Ping()` returns a nil error. -/
  ping : List Event → Conn → Bool
  /-- Whether `c.Close()` returns a nil error. -/
  close : List Event → Conn → Bool
  /-- The result of the query of `listTables`, `none` on error. -/
  queryTables : List Event → Conn → Option (Rows String)
  /-- The result of the query of `printTableStructure`, `none` on error. -/
  queryTableInfo : List Event → Conn → String → Option (Rows ColumnInfo)

/-- The state of a run: the package-level variables of `main.go`, the lines
the user has not typed yet, and the history of the run. -/
structure World where
  /-- The variable `var selectDB string`: the mode, `""` at the top level. -/
  selectDB : String
  /-- The variable `var db *sql.DB`: the active connection, `none` for `nil`. -/
  db : Option Conn
  /-- The variable `var dbFilePath string`: the active file path. -/
  dbFilePath : String
  /-- The lines that the coming calls of `prompt.Input` return. -/
  stdin : List String
  /-- The interactions so far, oldest first. -/
  trace : List Event
  deriving DecidableEq, Repr

/-- How a call ends: it returns, the process is ended by `log.Fatalf`
(`os.Exit(1)`), or a run-time panic (nil dereference, index out of range). -/
inductive Outcome (α : Type)
  | ret (a : α) (w : World)
  | fatal (w : World)
  | panic (w : World)
  deriving DecidableEq, Repr

namespace World

/-- The state of the program when `main` starts. -/
def init (stdin : List String) : World :=
  { selectDB := "", db := none, dbFilePath := "", stdin := stdin, trace := [] }

/-- Record an interaction. -/
def emit (w : World) (e : Event) : World :=
  { w with trace := w.trace ++ [e] }

/-- Write to the terminal. -/
def say (w : World) (m : Msg) : World :=
  w.emit (Event.print m)

/-- The `[%d] %s` lines printed by the loops at lines 97 and 181, numbered
from `i`. -/
def sayItems (w : World) : Nat → List String → World
  | _, [] => w
  | i, x :: xs => sayItems (w.say (Msg.item i x)) (i + 1) xs

end World

/-- The call `prompt.Input("> ", completer)`: the next line the user types
(the empty string at the end of the input). -/
def promptInput (w : World) : String × World :=
  let text := w.stdin.headD ""
  (text, { w with stdin := w.stdin.tail, trace := w.trace ++ [Event.input text] })

/-! ## The program -/

/-- Lines 47 to 51 of `createDatabase`: the file name for the entered name. -/
def dbFileName (input : String) : String :=
  if !strings.HasSuffix input ".db" then input ++ ".db" else input

/-- The function `createDatabase` (lines 38 to 74).  The deferred
`newDB.Close()` runs when the function returns after a successful open. -/
def createDatabase (env : Env) (w : World) : World :=
  let dir := "databases"
  let ok := env.mkdirAll w.trace dir
  let w := w.emit (Event.mkdirAll dir ok)
  if !ok then w.say Msg.mkdirError
  else
    let w := w.say Msg.askNewName
    let (input, w) := promptInput w
    let dbName := dbFileName input
    let dbPath := filepath.Join [dir, dbName]
    let found := env.stat w.trace dbPath
    let w := w.emit (Event.stat dbPath found)
    if found then w.say Msg.alreadyExists
    else
      let opened := env.sqlOpen w.trace dbPath
      let w := w.emit (Event.sqlOpen dbPath opened)
      if !opened then w.say Msg.createOpenError
      else
        let newDB : Conn := ⟨dbPath⟩
        let done := env.exec w.trace newDB createTableStmt
        let w := w.emit (Event.exec newDB createTableStmt done)
        let w := if !done then w.say Msg.initError else w.say (Msg.created dbName dir)
        w.emit (Event.close newDB (env.close w.trace newDB))

/-- The loop at lines 84 to 89 of `connectDB`: the candidate list. -/
def dbFiles (dir : String) (files : List DirEntry) : List String :=
  files.foldl
    (fun acc file =>
      if !file.isDir && filepath.Ext file.name == ".db" then
        acc ++ [filepath.Join [dir, file.name]]
      else acc)
    []

/-- The function `connectDB` (lines 76 to 128).  `log.Fatalf` ends the
process, so the statements after it (lines 117, 123 and 124) never run. -/
def connectDB (env : Env) (w : World) : Outcome Unit :=
  let dir := "databases"
  match env.readDir w.trace dir with
  | none => Outcome.ret () ((w.emit (Event.readDir dir false)).say Msg.readDirError)
  | some files =>
    let w := w.emit (Event.readDir dir true)
    let dbFiles := dbFiles dir files
    if dbFiles.length = 0 then Outcome.ret () (w.say Msg.noDatabases)
    else
      let w := (w.say Msg.chooseDatabase).sayItems 1 dbFiles
      let w := w.say Msg.askDatabaseNumber
      let (input, w) := promptInput w
      let choice : Int := (fmt.SscanfInt input).getD 0
      if choice < 1 ∨ choice > dbFiles.length then Outcome.ret () (w.say Msg.invalidChoice)
      else
        match dbFiles.get? (choice - 1).toNat with
        | none => Outcome.panic w
        | some path =>
          let w := { w with dbFilePath := path }
          let w := w.say (Msg.connecting path)
          let opened := env.sqlOpen w.trace path
          let w := { w with db := if opened then some ⟨path⟩ else none }
          let w := w.emit (Event.sqlOpen path opened)
          if !opened then Outcome.fatal (w.say Msg.fatalOpen)
          else
            let alive := env.ping w.trace ⟨path⟩
            let w := w.emit (Event.ping ⟨path⟩ alive)
            if !alive then Outcome.fatal (w.say Msg.fatalPing)
            else Outcome.ret () (w.say Msg.connected)

/-- The function `closeDB` (lines 130 to 142). -/
def closeDB (env : Env) (w : World) : World :=
  match w.db with
  | some c =>
    let ok := env.close w.trace c
    let w := w.emit (Event.close c ok)
    let w := if !ok then w.say Msg.closeError else w.say Msg.closed
    { w with db := none }
  | none => w.say Msg.alreadyClosed

/-- The sentinel returned by `getDBName` when no path is set (line 146). -/
def noDatabaseSelected : String :=
  "База данных не выбрана"

/-- The function `getDBName` (lines 144 to 149). -/
def getDBName (w : World) : String :=
  if w.dbFilePath = "" then noDatabaseSelected
  else "Вы сейчас работаете с базой данных: " ++ w.dbFilePath

/-- The function `listTables` (lines 151 to 173).  Calling `Query` on a nil
`*sql.DB` is a nil-pointer dereference. -/
def listTables (env : Env) (w : World) : Outcome (Except ListError (List String)) :=
  match w.db with
  | none => Outcome.panic w
  | some c =>
    match env.queryTables w.trace c with
    | none => Outcome.ret (Except.error ListError.query) (w.emit (Event.query c listTablesQuery false))
    | some r =>
      let w := w.emit (Event.query c listTablesQuery true)
      match r.finish with
      | RowsEnd.scanError => Outcome.ret (Except.error ListError.scan) w
      | RowsEnd.rowsError => Outcome.ret (Except.error ListError.rows) w
      | RowsEnd.done => Outcome.ret (Except.ok r.rows) w

/-- The function `selectTable` (lines 175 to 195).  The slice access
`tables[choice-1]` panics when the index is out of range. -/
def selectTable (w : World) (tables : List String) : Outcome (Except SelectError String) :=
  if tables.length = 0 then Outcome.ret (Except.error SelectError.noTables) w
  else
    let w := (w.say Msg.tableList).sayItems 1 tables
    let w := w.say Msg.askTableNumber
    let (input, w) := promptInput w
    let choice : Int := (fmt.SscanfInt input).getD 0
    if choice < 1 ∨ choice > tables.length then
      Outcome.ret (Except.error SelectError.invalidChoice) w
    else
      match tables.get? (choice - 1).toNat with
      | none => Outcome.panic w
      | some table => Outcome.ret (Except.ok table) w

/-- The lines printed by the loop at lines 210 to 220 of
`printTableStructure`. -/
def sayColumns (w : World) : List ColumnInfo → World
  | [] => w
  | c :: cs =>
    sayColumns
      (w.say (Msg.structureRow c.name c.ctype c.notnull c.pk (c.dfltValue.getD ""))) cs

/-- The function `printTableStructure` (lines 197 to 224); the result is
`true` for a nil error. -/
def printTableStructure (env : Env) (w : World) (tableName : String) : Outcome Bool :=
  match w.db with
  | none => Outcome.panic w
  | some c =>
    match env.queryTableInfo w.trace c tableName with
    | none => Outcome.ret false (w.emit (Event.query c (tableInfoQuery tableName) false))
    | some r =>
      let w := w.emit (Event.query c (tableInfoQuery tableName) true)
      let w := sayColumns (w.say (Msg.structureHeader tableName)) r.rows
      match r.finish with
      | RowsEnd.scanError => Outcome.ret false w
      | RowsEnd.rowsError => Outcome.ret false (w.say Msg.structureRule)
      | RowsEnd.done => Outcome.ret true (w.say Msg.structureRule)

/-- The function `executor` (lines 226 to 272). -/
def executor (env : Env) (w : World) (input : String) : Outcome Unit :=
  let cmd := strings.TrimSpace input
  if w.selectDB = "" then
    if cmd = "sqlite" then
      match connectDB env (w.say Msg.sqliteSelected) with
      | Outcome.ret _ w => Outcome.ret () { w with selectDB := "sqlite" }
      | Outcome.fatal w => Outcome.fatal w
      | Outcome.panic w => Outcome.panic w
    else if cmd = "exit" then Outcome.ret () (w.say Msg.exiting)
    else Outcome.ret () (w.say (Msg.unknownCommand cmd))
  else if w.selectDB = "sqlite" then
    if cmd = "name" then Outcome.ret () (w.say (Msg.line (getDBName w)))
    else if cmd = "newdb" then Outcome.ret () (createDatabase env w)
    else if cmd = "structure" then
      match listTables env w with
      | Outcome.fatal w => Outcome.fatal w
      | Outcome.panic w => Outcome.panic w
      | Outcome.ret (Except.error err) w => Outcome.ret () (w.say (Msg.listTablesFailed err))
      | Outcome.ret (Except.ok tables) w =>
        match selectTable w tables with
        | Outcome.fatal w => Outcome.fatal w
        | Outcome.panic w => Outcome.panic w
        | Outcome.ret (Except.error err) w => Outcome.ret () (w.say (Msg.selectTableFailed err))
        | Outcome.ret (Except.ok tableName) w =>
          match printTableStructure env w tableName with
          | Outcome.fatal w => Outcome.fatal w
          | Outcome.panic w => Outcome.panic w
          | Outcome.ret true w => Outcome.ret () w
          | Outcome.ret false w => Outcome.ret () (w.say Msg.structureFailed)
    else if cmd = "exit" then Outcome.ret () (closeDB env (w.say Msg.exiting))
    else Outcome.ret () (w.say (Msg.unknownSqliteCommand cmd))
  else Outcome.ret () w

/-- How a run of `main` stands after a number of iterations of its loop. -/
inductive Run
  /-- The loop was left by `break`, `closeDB` ran and `main` returned. -/
  | exited (w : World)
  /-- The loop is still going: the next thing is the prompt of line 277. -/
  | running (w : World)
  /-- The process was ended by `log.Fatalf`. -/
  | fatal (w : World)
  /-- The process died of a run-time panic. -/
  | panic (w : World)
  deriving DecidableEq, Repr

/-- The loop of `main` (lines 276 to 282), at most `n` iterations of it, and
the `closeDB` of line 283 when the loop is left. -/
def mainLoop (env : Env) : Nat → World → Run
  | 0, w => Run.running w
  | n + 1, w =>
    let (input, w) := promptInput w
    if input = "exit" then Run.exited (closeDB env w)
    else
      match executor env w input with
      | Outcome.ret _ w => mainLoop env n w
      | Outcome.fatal w => Run.fatal w
      | Outcome.panic w => Run.panic w

/-- The function `main` (lines 274 to 284), its loop run for at most `n`
iterations on the lines `stdin`. -/
def main (env : Env) (n : Nat) (stdin : List String) : Run :=
  mainLoop env n ((World.init stdin).say Msg.banner)


/-! ## Runs used in the statements -/

/-- The runs of `connectDB` that give up before a database is opened: the
directory cannot be read, it holds no candidate, or the line typed at the
prompt is not the number of a candidate. -/
def connectRefused (env : Env) (w : World) : Bool :=
  match env.readDir w.trace "databases" with
  | none => true
  | some files =>
    decide (dbFiles "databases" files = [] ∨
      (fmt.SscanfInt (w.stdin.headD "")).getD 0 < 1 ∨
      (fmt.SscanfInt (w.stdin.headD "")).getD 0 > (dbFiles "databases" files).length)

/-- Whether an event is an unknown-command diagnostic (lines 239 and 269). -/
def Event.isUnknownDiagnostic : Event → Bool
  | Event.print (Msg.unknownCommand _) => true
  | Event.print (Msg.unknownSqliteCommand _) => true
  | _ => false

/-- An environment in which every call succeeds, the storage directory is
empty, no path exists and every query fails. -/
def Env.empty : Env :=
  { mkdirAll := fun _ _ => true
    readDir := fun _ _ => some []
    stat := fun _ _ => false
    sqlOpen := fun _ _ => true
    exec := fun _ _ _ => true
    ping := fun _ _ => true
    close := fun _ _ => true
    queryTables := fun _ _ => none
    queryTableInfo := fun _ _ _ => none }

/-- The environment `Env.empty` with the files `a.db`, `b.db` and `notes.txt`
in the storage directory. -/
def Env.twoDatabases : Env :=
  { Env.empty with
    readDir := fun _ _ => some [⟨"a.db", false⟩, ⟨"b.db", false⟩, ⟨"notes.txt", false⟩]
    stat := fun _ path => path = "databases/a.db" ∨ path = "databases/b.db" }

/-- The environment `Env.twoDatabases` with a connection check that fails. -/
def Env.deadDatabases : Env :=
  { Env.twoDatabases with ping := fun _ _ => false }

/-- The environment `Env.twoDatabases` in which no database can be opened. -/
def Env.lockedDatabases : Env :=
  { Env.twoDatabases with sqlOpen := fun _ _ => false }

/-- A session connected to `databases/a.db`. -/
def World.connected (stdin : List String) : World :=
  { selectDB := "sqlite", db := some ⟨"databases/a.db"⟩, dbFilePath := "databases/a.db",
    stdin := stdin, trace := [] }

/-! ## Facts about the library functions -/

theorem hasSuffix_iff (s suffix : String) :
    strings.HasSuffix s suffix = true ↔ suffix.data <:+ s.data := by
  simp [strings.HasSuffix]

theorem hasSuffix_append (s suffix : String) :
    strings.HasSuffix (s ++ suffix) suffix = true := by
  rw [hasSuffix_iff]
  exact ⟨s.data, by simp⟩

theorem extScan_nil_or_longer (r acc : List Char) :
    filepath.extScan r acc = [] ∨ acc.length < (filepath.extScan r acc).length := by
  induction r generalizing acc with
  | nil => left; rfl
  | cons c rest ih =>
    unfold filepath.extScan
    by_cases h1 : c = '/'
    · simp [h1]
    · by_cases h2 : c = '.'
      · simp [h2]
      · simp only [h1, h2, if_false]
        rcases ih (c :: acc) with h | h
        · left; exact h
        · right
          simp only [List.length_cons] at h
          omega

theorem extScan_eq_db_iff (r : List Char) :
    filepath.extScan r [] = ['.', 'd', 'b'] ↔ ∃ t, r = 'b' :: 'd' :: '.' :: t := by
  constructor
  · intro h
    match r, h with
    | [], h => simp [filepath.extScan] at h
    | [c1], h =>
      unfold filepath.extScan at h
      by_cases h1 : c1 = '/' <;> by_cases h2 : c1 = '.' <;> simp [h1, h2, filepath.extScan] at h
    | [c1, c2], h =>
      unfold filepath.extScan at h
      by_cases h1 : c1 = '/' <;> by_cases h2 : c1 = '.' <;> simp [h1, h2] at h
      unfold filepath.extScan at h
      by_cases h3 : c2 = '/' <;> by_cases h4 : c2 = '.' <;> simp [h3, h4, filepath.extScan] at h
    | c1 :: c2 :: c3 :: t, h =>
      unfold filepath.extScan at h
      by_cases h1 : c1 = '/' <;> by_cases h2 : c1 = '.' <;> simp [h1, h2] at h
      unfold filepath.extScan at h
      by_cases h3 : c2 = '/' <;> by_cases h4 : c2 = '.' <;> simp [h3, h4] at h
      unfold filepath.extScan at h
      by_cases h5 : c3 = '/' <;> by_cases h6 : c3 = '.' <;> simp [h5, h6] at h
      · exact ⟨t, by rw [h.1, h.2, h6]⟩
      · rcases extScan_nil_or_longer t [c3, c2, c1] with h7 | h7
        · rw [h7] at h; simp at h
        · rw [h] at h7; simp at h7
  · rintro ⟨t, rfl⟩
    simp [filepath.extScan]

/-- The test of line 86 is a suffix test: `filepath.Ext(name) == ".db"`
holds exactly when `name` ends in `.db`. -/
theorem ext_eq_db_iff (name : String) :
    filepath.Ext name = ".db" ↔ strings.HasSuffix name ".db" = true := by
  rw [hasSuffix_iff]
  have hdb : (".db" : String).data = ['.', 'd', 'b'] := rfl
  rw [hdb]
  constructor
  · intro h
    have h1 : filepath.extScan name.data.reverse [] = ['.', 'd', 'b'] := by
      have := congrArg String.data h
      simpa [filepath.Ext] using this
    obtain ⟨t, ht⟩ := (extScan_eq_db_iff _).1 h1
    refine ⟨t.reverse, ?_⟩
    have := congrArg List.reverse ht
    simpa using this.symm
  · rintro ⟨t, ht⟩
    apply String.ext
    show filepath.extScan name.data.reverse [] = ['.', 'd', 'b']
    rw [extScan_eq_db_iff]
    exact ⟨t.reverse, by rw [← ht]; simp⟩

theorem ext_beq_db (name : String) :
    (filepath.Ext name == ".db") = strings.HasSuffix name ".db" := by
  by_cases h : strings.HasSuffix name ".db" = true
  · rw [h]; simpa using (ext_eq_db_iff name).2 h
  · have h2 : ¬ filepath.Ext name = ".db" := fun h3 => h ((ext_eq_db_iff name).1 h3)
    simp only [Bool.not_eq_true] at h
    rw [h]; simpa using h2

theorem cleanLoop_copy (l out : List Char) (d : Nat) (h : '/' ∉ l) :
    filepath.cleanLoop l true out d = out ++ l := by
  induction l generalizing out with
  | nil => simp [filepath.cleanLoop]
  | cons c t ih =>
    have hc : c ≠ '/' := fun e => h (by simp [e])
    have ht : '/' ∉ t := fun e => h (List.mem_cons_of_mem _ e)
    simp [filepath.cleanLoop, hc, ih _ ht]

theorem cleanLoop_start (c : Char) (t out : List Char) (d : Nat) (hout : out ≠ [])
    (h : '/' ∉ c :: t) (h1 : c :: t ≠ ['.']) (h2 : c :: t ≠ ['.', '.']) :
    filepath.cleanLoop (c :: t) false out d = out ++ '/' :: c :: t := by
  have hc : c ≠ '/' := fun e => h (by simp [e])
  have ht : '/' ∉ t := fun e => h (List.mem_cons_of_mem _ e)
  have hl : out.length ≠ 0 := fun e => hout (List.length_eq_zero.1 e)
  unfold filepath.cleanLoop
  split <;> simp_all [cleanLoop_copy]

theorem cleanLoop_databases (l : List Char) :
    filepath.cleanLoop ("databases/".data ++ l) false [] 0 =
      filepath.cleanLoop l false "databases".data 0 := by
  simp [filepath.cleanLoop]

theorem clean_unrooted (path : String) (c0 : Char) (rest out : List Char)
    (hd : path.data = c0 :: rest) (h0 : c0 ≠ '/')
    (ho : filepath.cleanLoop (c0 :: rest) false [] 0 = out) (hne : out ≠ []) :
    filepath.Clean path = ⟨out⟩ := by
  unfold filepath.Clean
  rw [hd]
  split
  · rename_i heq; cases heq
  · rename_i heq
    simp only [List.cons.injEq] at heq
    exact absurd heq.1 h0
  · rename_i c r _ heq
    simp only [List.cons.injEq] at heq
    obtain ⟨rfl, rfl⟩ := heq
    rw [ho]
    split
    · exact absurd rfl hne
    · rfl

/-- For the name of a directory entry (not empty, without a separator,
neither `.` nor `..`) joining is concatenation. -/
theorem join_plain (name : String) (h : '/' ∉ name.data) (h0 : name ≠ "")
    (h1 : name ≠ ".") (h2 : name ≠ "..") :
    filepath.Join ["databases", name] = "databases/" ++ name := by
  obtain ⟨l⟩ := name
  cases l with
  | nil => exact absurd rfl h0
  | cons c t =>
    have e1 : c :: t ≠ ['.'] := fun e => h1 (congrArg String.mk e)
    have e2 : c :: t ≠ ['.', '.'] := fun e => h2 (congrArg String.mk e)
    have hs := cleanLoop_start c t "databases".data 0 (by decide) h e1 e2
    have hj : filepath.Join ["databases", ⟨c :: t⟩] =
        filepath.Clean ⟨"databases/".data ++ (c :: t)⟩ := by
      have : ("databases" : String) ≠ "" := by decide
      simp only [filepath.Join, this, if_false, List.foldl]
      rfl
    rw [hj]
    have hc := cleanLoop_databases (c :: t)
    rw [hs] at hc
    exact clean_unrooted _ 'd' ("atabases/".data ++ (c :: t)) _ rfl (by decide) hc (by simp)
/-! ## The file name of a new database (lines 47 to 51) -/

/-- C7. The file name computed by `createDatabase` ends in `.db`; a name
that does not end in `.db` gets exactly one `.db` appended, a name that ends
in `.db` is kept as it is; the normalisation is idempotent, and the result
ends in `.db.db` only if the entered name did. -/
theorem dbFileName_suffix (input : String) :
    strings.HasSuffix (dbFileName input) ".db" = true ∧
      (strings.HasSuffix input ".db" = false → dbFileName input = input ++ ".db") ∧
      (strings.HasSuffix input ".db" = true → dbFileName input = input) ∧
      dbFileName (dbFileName input) = dbFileName input ∧
      (strings.HasSuffix (dbFileName input) ".db.db" = true →
        strings.HasSuffix input ".db.db" = true) := by
  by_cases h : strings.HasSuffix input ".db" = true
  · have e : dbFileName input = input := by simp [dbFileName, h]
    simp [e, h, dbFileName]
  · simp only [Bool.not_eq_true] at h
    have e : dbFileName input = input ++ ".db" := by simp [dbFileName, h]
    have hs := hasSuffix_append input ".db"
    refine ⟨by rw [e]; exact hs, fun _ => e, fun h2 => by simp [h] at h2, ?_, ?_⟩
    · rw [e]; simp [dbFileName, hs]
    · intro h2
      exfalso
      rw [e, hasSuffix_iff] at h2
      obtain ⟨t, ht⟩ := h2
      have h3 : (t ++ ['.', 'd', 'b']) ++ ['.', 'd', 'b'] = input.data ++ ['.', 'd', 'b'] := by
        simpa using ht
      have h4 := List.append_cancel_right h3
      have h5 : strings.HasSuffix input ".db" = true := by
        rw [hasSuffix_iff]; exact ⟨t, h4⟩
      simp [h] at h5

/-! ## The candidate list of `connectDB` (lines 84 to 89) -/

theorem dbFiles_foldl (dir : String) (files : List DirEntry) (acc : List String) :
    files.foldl
        (fun acc file =>
          if !file.isDir && filepath.Ext file.name == ".db" then
            acc ++ [filepath.Join [dir, file.name]]
          else acc)
        acc =
      acc ++ (files.filter fun f => !f.isDir && strings.HasSuffix f.name ".db").map
        fun f => filepath.Join [dir, f.name] := by
  induction files generalizing acc with
  | nil => simp
  | cons f fs ih =>
    rw [List.foldl_cons, ih]
    by_cases h : (!f.isDir && strings.HasSuffix f.name ".db") = true
    · have h2 : (!f.isDir && filepath.Ext f.name == ".db") = true := by
        rw [ext_beq_db]; exact h
      simp [h, h2]
    · have h2 : ¬ (!f.isDir && filepath.Ext f.name == ".db") = true := by
        rw [ext_beq_db]; exact h
      simp only [Bool.not_eq_true] at h h2
      simp [h, h2]

/-- C8. The candidate list consists of exactly the entries of the listing
that are not directories and whose name ends in `.db`, each joined to the
storage directory, in the order of the listing, none dropped and none twice;
joining the name of a directory entry to `databases` puts `databases/` in
front of it; for `a.db`, `b.db`, `notes.txt` the candidates are
`databases/a.db` then `databases/b.db`. -/
theorem dbFiles_eq_filter_map (dir : String) (files : List DirEntry) :
    dbFiles dir files =
        (files.filter fun f => !f.isDir && strings.HasSuffix f.name ".db").map
          (fun f => filepath.Join [dir, f.name]) ∧
      (∀ name : String, '/' ∉ name.data → name ≠ "" → name ≠ "." → name ≠ ".." →
        filepath.Join ["databases", name] = "databases/" ++ name) ∧
      dbFiles "databases" [⟨"a.db", false⟩, ⟨"b.db", false⟩, ⟨"notes.txt", false⟩] =
        ["databases/a.db", "databases/b.db"] := by
  refine ⟨?_, join_plain, by decide⟩
  unfold dbFiles
  rw [dbFiles_foldl]
  simp

/-! ## Reading a choice with `Sscanf` -/

theorem digit_not_space (c : Char) (h : fmt.isDecimalDigit c = true) :
    unicode.IsSpace c = false ∧ c ≠ '\r' ∧ c ≠ '\n' ∧ c ≠ '-' ∧ c ≠ '+' := by
  refine ⟨?_, ?_, ?_, ?_, ?_⟩
  · simp only [fmt.isDecimalDigit, Bool.and_eq_true, decide_eq_true_eq] at h
    have h0 : '0'.toNat = 48 := rfl
    have h9 : '9'.toNat = 57 := rfl
    rw [h0, h9] at h
    simp only [unicode.IsSpace, Bool.or_eq_false_iff, Bool.and_eq_false_iff, beq_eq_false_iff_ne,
      decide_eq_false_iff_not]
    omega
  all_goals
    intro e
    subst e
    revert h
    decide

theorem skipSpace_digit (c : Char) (rest : List Char) (h : fmt.isDecimalDigit c = true) :
    fmt.skipSpace (c :: rest) = some (c :: rest) := by
  obtain ⟨h1, h2, h3, _, _⟩ := digit_not_space c h
  simp [fmt.skipSpace, h1, h2, h3]

theorem acceptSign_other (c : Char) (t : List Char) (hm : c ≠ '-') (hp : c ≠ '+') :
    fmt.acceptSign (c :: t) = (false, c :: t) := by
  unfold fmt.acceptSign
  split
  · rename_i h; simp at h; exact absurd h.1 hm
  · rename_i h; simp at h; exact absurd h.1 hp
  · rfl

theorem takeWhile_digits (ds rest : List Char) (hds : ∀ c ∈ ds, fmt.isDecimalDigit c = true)
    (hrest : ∀ c, rest.head? = some c → fmt.isDecimalDigit c = false) :
    (ds ++ rest).takeWhile fmt.isDecimalDigit = ds := by
  induction ds with
  | nil =>
    cases rest with
    | nil => rfl
    | cons c t => simp [List.takeWhile, hrest c rfl]
  | cons d ds ih =>
    have hd : fmt.isDecimalDigit d = true := hds d (List.mem_cons_self _ _)
    have ih2 := ih (fun c hc => hds c (List.mem_cons_of_mem _ hc))
    simp only [List.cons_append, List.takeWhile_cons, hd, if_true, ih2]

/-- A line that starts with a decimal numeral is read as the value of the
numeral, whatever follows the digits. -/
theorem sscanfInt_numeral (ds rest : List Char) (hne : ds ≠ [])
    (hds : ∀ c ∈ ds, fmt.isDecimalDigit c = true)
    (hrest : ∀ c, rest.head? = some c → fmt.isDecimalDigit c = false)
    (hlt : fmt.digitsValue ds < 2 ^ 63) :
    fmt.SscanfInt ⟨ds ++ rest⟩ = some (fmt.digitsValue ds : Int) := by
  obtain ⟨d, ds', rfl⟩ := List.exists_cons_of_ne_nil hne
  have hd : fmt.isDecimalDigit d = true := hds d (List.mem_cons_self _ _)
  obtain ⟨_, _, _, hm, hp⟩ := digit_not_space d hd
  have htw := takeWhile_digits (d :: ds') rest hds hrest
  simp only [List.cons_append] at htw
  unfold fmt.SscanfInt
  simp only [List.cons_append, skipSpace_digit d _ hd, acceptSign_other d _ hm hp]
  unfold fmt.scanNumber
  simp only [htw]
  simp
  simpa using hlt

/-- A line that is empty, or starts with something that is neither white
space, a sign nor a digit, is not read as a number. -/
theorem sscanfInt_none (input : String)
    (h : ∀ c, input.data.head? = some c →
      unicode.IsSpace c = false ∧ c ≠ '-' ∧ c ≠ '+' ∧ fmt.isDecimalDigit c = false) :
    fmt.SscanfInt input = none := by
  unfold fmt.SscanfInt
  cases hd : input.data with
  | nil => simp [fmt.skipSpace, fmt.acceptSign, fmt.scanNumber]
  | cons c t =>
    obtain ⟨h1, h2, h3, h4⟩ := h c (by simp [hd])
    have hr : c ≠ '\r' := by
      intro e; subst e; revert h1; decide
    have hn : c ≠ '\n' := by
      intro e; subst e; revert h1; decide
    simp [fmt.skipSpace, h1, hr, hn, acceptSign_other c t h2 h3, fmt.scanNumber,
      List.takeWhile_cons, h4]

/-! ## Printing and prompting leave the variables alone -/

@[simp] theorem emit_selectDB (w : World) (e : Event) : (w.emit e).selectDB = w.selectDB := rfl
@[simp] theorem emit_db (w : World) (e : Event) : (w.emit e).db = w.db := rfl
@[simp] theorem emit_dbFilePath (w : World) (e : Event) :
    (w.emit e).dbFilePath = w.dbFilePath := rfl
@[simp] theorem emit_stdin (w : World) (e : Event) : (w.emit e).stdin = w.stdin := rfl
@[simp] theorem emit_trace (w : World) (e : Event) : (w.emit e).trace = w.trace ++ [e] := rfl
@[simp] theorem say_selectDB (w : World) (m : Msg) : (w.say m).selectDB = w.selectDB := rfl
@[simp] theorem say_db (w : World) (m : Msg) : (w.say m).db = w.db := rfl
@[simp] theorem say_dbFilePath (w : World) (m : Msg) :
    (w.say m).dbFilePath = w.dbFilePath := rfl
@[simp] theorem say_stdin (w : World) (m : Msg) : (w.say m).stdin = w.stdin := rfl
@[simp] theorem say_trace (w : World) (m : Msg) :
    (w.say m).trace = w.trace ++ [Event.print m] := rfl

@[simp] theorem sayItems_selectDB (w : World) (i : Nat) (xs : List String) :
    (w.sayItems i xs).selectDB = w.selectDB := by
  induction xs generalizing w i with
  | nil => rfl
  | cons x xs ih => simp [World.sayItems, ih]

@[simp] theorem sayItems_db (w : World) (i : Nat) (xs : List String) :
    (w.sayItems i xs).db = w.db := by
  induction xs generalizing w i with
  | nil => rfl
  | cons x xs ih => simp [World.sayItems, ih]

@[simp] theorem sayItems_dbFilePath (w : World) (i : Nat) (xs : List String) :
    (w.sayItems i xs).dbFilePath = w.dbFilePath := by
  induction xs generalizing w i with
  | nil => rfl
  | cons x xs ih => simp [World.sayItems, ih]

@[simp] theorem sayItems_stdin (w : World) (i : Nat) (xs : List String) :
    (w.sayItems i xs).stdin = w.stdin := by
  induction xs generalizing w i with
  | nil => rfl
  | cons x xs ih => simp [World.sayItems, ih]

@[simp] theorem promptInput_fst (w : World) : (promptInput w).1 = w.stdin.headD "" := rfl
@[simp] theorem promptInput_selectDB (w : World) :
    (promptInput w).2.selectDB = w.selectDB := rfl
@[simp] theorem promptInput_db (w : World) : (promptInput w).2.db = w.db := rfl
@[simp] theorem promptInput_dbFilePath (w : World) :
    (promptInput w).2.dbFilePath = w.dbFilePath := rfl
@[simp] theorem promptInput_stdin (w : World) : (promptInput w).2.stdin = w.stdin.tail := rfl
@[simp] theorem promptInput_trace (w : World) :
    (promptInput w).2.trace = w.trace ++ [Event.input (w.stdin.headD "")] := rfl

/-! ## `selectTable` -/

theorem get_choice (tables : List String) (k : Int) (h1 : 1 ≤ k) (h2 : k ≤ tables.length) :
    ∃ t, tables.get? (k - 1).toNat = some t := by
  have h : (k - 1).toNat < tables.length := by omega
  exact ⟨tables.get ⟨_, h⟩, List.get?_eq_get h⟩

theorem selectTable_invalid (w : World) (tables : List String) (hne : tables ≠ [])
    (h : (fmt.SscanfInt (w.stdin.headD "")).getD 0 < 1 ∨
      (fmt.SscanfInt (w.stdin.headD "")).getD 0 > tables.length) :
    ∃ w', selectTable w tables = Outcome.ret (Except.error SelectError.invalidChoice) w' := by
  have hl : tables.length ≠ 0 := fun e => hne (List.length_eq_zero.1 e)
  refine ⟨(promptInput (((w.say Msg.tableList).sayItems 1 tables).say Msg.askTableNumber)).2, ?_⟩
  unfold selectTable
  simp only [hl, if_false, promptInput_fst, say_stdin, sayItems_stdin]
  rw [if_pos h]

theorem selectTable_valid (w : World) (tables : List String) (k : Int)
    (hk : fmt.SscanfInt (w.stdin.headD "") = some k) (h1 : 1 ≤ k) (h2 : k ≤ tables.length) :
    ∃ t w', tables.get? (k - 1).toNat = some t ∧
      selectTable w tables = Outcome.ret (Except.ok t) w' := by
  have hl : tables.length ≠ 0 := by omega
  obtain ⟨t, ht⟩ := get_choice tables k h1 h2
  refine ⟨t, (promptInput (((w.say Msg.tableList).sayItems 1 tables).say Msg.askTableNumber)).2,
    ht, ?_⟩
  unfold selectTable
  simp only [hl, if_false, promptInput_fst, say_stdin, sayItems_stdin, hk, Option.getD_some]
  rw [if_neg (by omega), ht]

theorem selectTable_no_panic (w : World) (tables : List String) (w' : World) :
    selectTable w tables ≠ Outcome.panic w' := by
  by_cases hne : tables = []
  · subst hne; simp [selectTable]
  · by_cases h : (fmt.SscanfInt (w.stdin.headD "")).getD 0 < 1 ∨
        (fmt.SscanfInt (w.stdin.headD "")).getD 0 > tables.length
    · obtain ⟨w1, e⟩ := selectTable_invalid w tables hne h
      rw [e]; simp
    · cases hk : fmt.SscanfInt (w.stdin.headD "") with
      | none => rw [hk] at h; simp at h
      | some k =>
        rw [hk] at h
        simp only [Option.getD_some, not_or, not_lt, gt_iff_lt] at h
        obtain ⟨t, w1, _, e⟩ := selectTable_valid w tables k hk h.1 h.2
        rw [e]; simp

/-- C4, as the code has it. `selectTable` fails with the no-tables error on
an empty list.  Otherwise the choice is the integer that `Sscanf` reads with
`%d` at the start of the line typed: when no integer can be read (as for an
empty line or one starting with a letter), or the integer is outside
`1..len(tables)`, it fails with the invalid-choice error; when the integer is
`k` with `1 <= k <= len(tables)`, as for a line that begins with the decimal
numeral of `k` whatever follows the digits, it returns `tables[k-1]`.  The
slice access is never out of range. -/
theorem selectTable_choice (w : World) (tables : List String) :
    (tables = [] →
      selectTable w tables = Outcome.ret (Except.error SelectError.noTables) w) ∧
    (tables ≠ [] → fmt.SscanfInt (w.stdin.headD "") = none →
      ∃ w', selectTable w tables = Outcome.ret (Except.error SelectError.invalidChoice) w') ∧
    (tables ≠ [] →
      (∀ c, (w.stdin.headD "").data.head? = some c →
        unicode.IsSpace c = false ∧ c ≠ '-' ∧ c ≠ '+' ∧ fmt.isDecimalDigit c = false) →
      ∃ w', selectTable w tables = Outcome.ret (Except.error SelectError.invalidChoice) w') ∧
    (∀ k : Int, tables ≠ [] → fmt.SscanfInt (w.stdin.headD "") = some k →
      k < 1 ∨ (tables.length : Int) < k →
      ∃ w', selectTable w tables = Outcome.ret (Except.error SelectError.invalidChoice) w') ∧
    (∀ k : Int, fmt.SscanfInt (w.stdin.headD "") = some k → 1 ≤ k → k ≤ tables.length →
      ∃ t w', tables.get? (k - 1).toNat = some t ∧
        selectTable w tables = Outcome.ret (Except.ok t) w') ∧
    (∀ ds rest : List Char, w.stdin.headD "" = ⟨ds ++ rest⟩ → ds ≠ [] →
      (∀ c ∈ ds, fmt.isDecimalDigit c = true) →
      (∀ c, rest.head? = some c → fmt.isDecimalDigit c = false) →
      1 ≤ fmt.digitsValue ds → fmt.digitsValue ds ≤ tables.length → tables.length < 2 ^ 63 →
      ∃ t w', tables.get? (fmt.digitsValue ds - 1) = some t ∧
        selectTable w tables = Outcome.ret (Except.ok t) w') ∧
    (∀ w', selectTable w tables ≠ Outcome.panic w') := by
  refine ⟨?_, ?_, ?_, ?_, ?_, ?_, selectTable_no_panic w tables⟩
  · rintro rfl; simp [selectTable]
  · intro hne hk
    exact selectTable_invalid w tables hne (by rw [hk]; left; decide)
  · intro hne hc
    exact selectTable_invalid w tables hne (by rw [sscanfInt_none _ hc]; left; decide)
  · intro k hne hk hr
    exact selectTable_invalid w tables hne (by rw [hk]; simpa using hr)
  · intro k hk h1 h2
    exact selectTable_valid w tables k hk h1 h2
  · intro ds rest hin hne hds hrest h1 h2 h3
    have hk : fmt.SscanfInt (w.stdin.headD "") = some (fmt.digitsValue ds : Int) := by
      rw [hin]; exact sscanfInt_numeral ds rest hne hds hrest (by omega)
    obtain ⟨t, w', ht, e⟩ := selectTable_valid w tables _ hk (by omega) (by omega)
    refine ⟨t, w', ?_, e⟩
    have : ((fmt.digitsValue ds : Int) - 1).toNat = fmt.digitsValue ds - 1 := by omega
    rw [← this]; exact ht

/-- C4, an instance: with two tables, the typed number `2` followed by text
selects the second table, and a line starting with a letter is refused. -/
theorem selectTable_choice_witness :
    (∃ t w', ["users", "orders"].get? (fmt.digitsValue ['2'] - 1) = some t ∧
      selectTable (World.init ["2 please"]) ["users", "orders"] =
        Outcome.ret (Except.ok t) w') ∧
    (∃ w', selectTable (World.init ["orders"]) ["users", "orders"] =
      Outcome.ret (Except.error SelectError.invalidChoice) w') :=
  ⟨(selectTable_choice (World.init ["2 please"]) ["users", "orders"]).2.2.2.2.2.1
      ['2'] " please".data rfl (by decide) (by decide) (by decide) (by decide) (by decide)
      (by decide),
    (selectTable_choice (World.init ["orders"]) ["users", "orders"]).2.2.1 (by decide)
      (by decide)⟩

/-- C4, as stated, fails: the line `2abc` is not a number, yet with two
tables `selectTable` returns the second table instead of the invalid-choice
error. -/
theorem selectTable_accepts_trailing_text :
    ("2abc".data.all fmt.isDecimalDigit) = false ∧
      ∃ w', selectTable (World.init ["2abc"]) ["users", "orders"] =
        Outcome.ret (Except.ok "orders") w' :=
  ⟨by decide, ⟨_, rfl⟩⟩

/-! ## `closeDB` and `getDBName` -/

theorem closeDB_db (env : Env) (w : World) : (closeDB env w).db = none := by
  unfold closeDB
  cases h : w.db with
  | none => simpa using h
  | some c => rfl

theorem closeDB_stdin (env : Env) (w : World) : (closeDB env w).stdin = w.stdin := by
  unfold closeDB
  cases h : w.db with
  | none => rfl
  | some c =>
    simp only
    split <;> rfl

/-- C6, as the code has it. With an open connection the first call of
`closeDB` closes it and sets `db` to nil; `dbFilePath` and the mode keep
their values, so `getDBName` answers as before.  A second call takes the
already-closed branch: it only prints, and leaves `db`, `dbFilePath` and the
mode as the first call left them. -/
theorem closeDB_twice (env : Env) (w : World) (c : Conn) (h : w.db = some c) :
    (closeDB env w).db = none ∧
      (closeDB env w).dbFilePath = w.dbFilePath ∧
      (closeDB env w).selectDB = w.selectDB ∧
      (closeDB env w).trace =
        w.trace ++ [Event.close c (env.close w.trace c),
          Event.print (if env.close w.trace c then Msg.closed else Msg.closeError)] ∧
      getDBName (closeDB env w) = getDBName w ∧
      closeDB env (closeDB env w) = (closeDB env w).say Msg.alreadyClosed := by
  have e : closeDB env w =
      { w with
        db := none
        trace := w.trace ++ [Event.close c (env.close w.trace c),
          Event.print (if env.close w.trace c then Msg.closed else Msg.closeError)] } := by
    unfold closeDB
    rw [h]
    cases hc : env.close w.trace c <;> simp [World.say, World.emit, hc]
  rw [e]
  refine ⟨rfl, rfl, rfl, rfl, rfl, ?_⟩
  simp [closeDB]

/-- C6, an instance: closing the connection to `databases/a.db` twice. -/
theorem closeDB_twice_witness :
    (closeDB Env.empty (World.connected [])).db = none ∧
      (closeDB Env.empty (World.connected [])).dbFilePath = "databases/a.db" ∧
      closeDB Env.empty (closeDB Env.empty (World.connected [])) =
        (closeDB Env.empty (World.connected [])).say Msg.alreadyClosed :=
  have h := closeDB_twice Env.empty (World.connected []) ⟨"databases/a.db"⟩ rfl
  ⟨h.1, h.2.1, h.2.2.2.2.2⟩

/-- C6, as stated, fails: after `closeDB` on a session connected to
`databases/a.db` the active file path is still `databases/a.db`, and
`getDBName` does not return the sentinel. -/
theorem closeDB_keeps_dbFilePath :
    (closeDB Env.empty (World.connected [])).dbFilePath = "databases/a.db" ∧
      getDBName (closeDB Env.empty (World.connected [])) ≠ noDatabaseSelected := by
  decide

/-! ## `executor`: unknown commands -/

/-- C9. In either mode, a line whose trimmed form is not a command wired to
an action in that mode makes no transition: `executor` returns, the mode, the
connection, the path and the pending input are unchanged, and the only thing
that happens is the unknown-command diagnostic of the mode. -/
theorem executor_unknown (env : Env) (w : World) (input : String)
    (h : (w.selectDB = "" ∧ strings.TrimSpace input ∉ ["sqlite", "exit"]) ∨
      (w.selectDB = "sqlite" ∧
        strings.TrimSpace input ∉ ["name", "newdb", "structure", "exit"])) :
    ∃ w', executor env w input = Outcome.ret () w' ∧
      w'.selectDB = w.selectDB ∧ w'.db = w.db ∧ w'.dbFilePath = w.dbFilePath ∧
      w'.stdin = w.stdin ∧
      w'.trace = w.trace ++ [Event.print
        (if w.selectDB = "" then Msg.unknownCommand (strings.TrimSpace input)
         else Msg.unknownSqliteCommand (strings.TrimSpace input))] := by
  rcases h with ⟨hm, hc⟩ | ⟨hm, hc⟩
  · simp only [List.mem_cons, List.mem_singleton, not_or, List.mem_nil_iff, or_false] at hc
    refine ⟨w.say (Msg.unknownCommand (strings.TrimSpace input)), ?_, rfl, rfl, rfl, rfl, ?_⟩
    · unfold executor
      simp [hm, hc.1, hc.2]
    · simp [hm]
  · simp only [List.mem_cons, List.mem_singleton, not_or, List.mem_nil_iff, or_false] at hc
    have hne : w.selectDB ≠ "" := by rw [hm]; decide
    refine ⟨w.say (Msg.unknownSqliteCommand (strings.TrimSpace input)), ?_, rfl, rfl, rfl, rfl, ?_⟩
    · unfold executor
      simp [hm, hc.1, hc.2.1, hc.2.2.1, hc.2.2.2]
    · simp [hne]

/-- C9, two instances: `create` in the SQLite mode and `newdb` at the top
level are unknown commands. -/
theorem executor_unknown_witness :
    (∃ w', executor Env.empty (World.connected []) "create" = Outcome.ret () w' ∧
      w'.selectDB = "sqlite" ∧ w'.db = some ⟨"databases/a.db"⟩ ∧
      w'.dbFilePath = "databases/a.db" ∧ w'.stdin = [] ∧
      w'.trace = [Event.print (Msg.unknownSqliteCommand "create")]) ∧
    (∃ w', executor Env.empty (World.init []) " newdb " = Outcome.ret () w' ∧
      w'.selectDB = "" ∧ w'.db = none ∧ w'.dbFilePath = "" ∧ w'.stdin = [] ∧
      w'.trace = [Event.print (Msg.unknownCommand "newdb")]) :=
  ⟨executor_unknown Env.empty (World.connected []) "create" (Or.inr (by decide)),
    executor_unknown Env.empty (World.init []) " newdb " (Or.inl (by decide))⟩

/-! ## `createDatabase` on an existing target -/

/-- C3. When a name is entered (the storage directory could be ensured, so
the prompt of line 46 is reached) and the target path, the storage directory
joined with the normalised name, already exists, `createDatabase` reports
"already exists" and returns: the whole run is `MkdirAll`, the prompt, `Stat`
and the message, so no database is opened, no statement is executed and the
file is not touched; the mode, the connection and the path are unchanged. -/
theorem createDatabase_existing (env : Env) (w : World)
    (hdir : env.mkdirAll w.trace "databases" = true)
    (hex : env.stat
        (w.trace ++ [Event.mkdirAll "databases" true, Event.print Msg.askNewName,
          Event.input (w.stdin.headD "")])
        (filepath.Join ["databases", dbFileName (w.stdin.headD "")]) = true) :
    (createDatabase env w).trace =
        w.trace ++ [Event.mkdirAll "databases" true, Event.print Msg.askNewName,
          Event.input (w.stdin.headD ""),
          Event.stat (filepath.Join ["databases", dbFileName (w.stdin.headD "")]) true,
          Event.print Msg.alreadyExists] ∧
      (createDatabase env w).selectDB = w.selectDB ∧
      (createDatabase env w).db = w.db ∧
      (createDatabase env w).dbFilePath = w.dbFilePath ∧
      (∀ e ∈ (createDatabase env w).trace, e ∉ w.trace →
        (∀ path ok, e ≠ Event.sqlOpen path ok) ∧ (∀ c stmt ok, e ≠ Event.exec c stmt ok)) := by
  have e : createDatabase env w =
      { w with
        stdin := w.stdin.tail
        trace := w.trace ++ [Event.mkdirAll "databases" true, Event.print Msg.askNewName,
          Event.input (w.stdin.headD ""),
          Event.stat (filepath.Join ["databases", dbFileName (w.stdin.headD "")]) true,
          Event.print Msg.alreadyExists] } := by
    unfold createDatabase
    simp only [hdir, World.say, World.emit, promptInput, List.append_assoc, List.singleton_append,
      List.cons_append, List.nil_append, Bool.not_true, Bool.false_eq_true, if_false]
    simp only [hex, if_true]
  rw [e]
  refine ⟨rfl, rfl, rfl, rfl, ?_⟩
  intro ev hev hnot
  simp only [List.mem_append, List.mem_cons, List.mem_singleton, List.mem_nil_iff, or_false] at hev
  rcases hev with hev | hev | hev | hev | hev | hev
  · exact absurd hev hnot
  all_goals
    subst hev
    exact ⟨fun _ _ => by simp, fun _ _ _ => by simp⟩

/-- C3, an instance: `newdb` with the name `a`, when `databases/a.db`
exists. -/
theorem createDatabase_existing_witness :
    (createDatabase Env.twoDatabases (World.connected ["a"])).trace =
        [Event.mkdirAll "databases" true, Event.print Msg.askNewName, Event.input "a",
          Event.stat "databases/a.db" true, Event.print Msg.alreadyExists] ∧
      (createDatabase Env.twoDatabases (World.connected ["a"])).db = some ⟨"databases/a.db"⟩ :=
  have h := createDatabase_existing Env.twoDatabases (World.connected ["a"]) rfl (by decide)
  ⟨h.1, h.2.2.1⟩

/-! ## `connectDB` -/

theorem connectDB_refused (env : Env) (w : World) (h : connectRefused env w = true) :
    ∃ w', connectDB env w = Outcome.ret () w' ∧
      w'.db = w.db ∧ w'.dbFilePath = w.dbFilePath ∧ w'.selectDB = w.selectDB ∧
      (w'.trace.getLast? = some (Event.print Msg.readDirError) ∨
        w'.trace.getLast? = some (Event.print Msg.noDatabases) ∨
        w'.trace.getLast? = some (Event.print Msg.invalidChoice)) := by
  unfold connectRefused at h
  cases hr : env.readDir w.trace "databases" with
  | none =>
    simp only [connectDB, hr]
    exact ⟨_, rfl, rfl, rfl, rfl, Or.inl (by simp)⟩
  | some files =>
    rw [hr] at h
    simp only [decide_eq_true_eq] at h
    by_cases he : dbFiles "databases" files = []
    · simp only [connectDB, hr, he, List.length_nil, if_true]
      exact ⟨_, rfl, rfl, rfl, rfl, Or.inr (Or.inl (by simp))⟩
    · have hl : (dbFiles "databases" files).length ≠ 0 := fun e => he (List.length_eq_zero.1 e)
      have hc := h.resolve_left he
      simp only [connectDB, hr, hl, if_false, promptInput_fst, say_stdin, sayItems_stdin,
        emit_stdin]
      rw [if_pos hc]
      exact ⟨_, rfl, by simp, by simp, by simp, Or.inr (Or.inr (by simp))⟩

theorem connectDB_chosen (env : Env) (w : World) (h : connectRefused env w = false) :
    (∃ w', connectDB env w = Outcome.ret () w' ∧
        w'.trace.getLast? = some (Event.print Msg.connected) ∧
        w'.db = some ⟨w'.dbFilePath⟩ ∧ w'.selectDB = w.selectDB) ∨
      (∃ w', connectDB env w = Outcome.fatal w' ∧
        (w'.trace.getLast? = some (Event.print Msg.fatalOpen) ∨
          w'.trace.getLast? = some (Event.print Msg.fatalPing))) := by
  unfold connectRefused at h
  cases hr : env.readDir w.trace "databases" with
  | none => rw [hr] at h; simp at h
  | some files =>
    rw [hr] at h
    simp only [decide_eq_false_iff_not, not_or, not_lt, gt_iff_lt] at h
    obtain ⟨he, h1, h2⟩ := h
    have hl : (dbFiles "databases" files).length ≠ 0 := fun e => he (List.length_eq_zero.1 e)
    obtain ⟨path, hp⟩ := get_choice (dbFiles "databases" files) _ h1 h2
    have hc : ¬ ((fmt.SscanfInt (w.stdin.headD "")).getD 0 < 1 ∨
        (fmt.SscanfInt (w.stdin.headD "")).getD 0 > (dbFiles "databases" files).length) := by
      omega
    simp only [connectDB, hr, hl, if_false, promptInput_fst, say_stdin, sayItems_stdin,
      emit_stdin]
    rw [if_neg hc, hp]
    simp only
    generalize hw1 : (promptInput ((((w.emit (Event.readDir "databases" true)).say
      Msg.chooseDatabase).sayItems 1 (dbFiles "databases" files)).say
      Msg.askDatabaseNumber)).2 = w1
    simp only [say_trace, emit_trace, List.append_assoc, List.cons_append, List.nil_append]
    by_cases ho : env.sqlOpen (w1.trace ++ [Event.print (Msg.connecting path)]) path = true
    · simp only [ho, Bool.not_true, Bool.false_eq_true, if_false, if_true]
      by_cases hg : env.ping
          (w1.trace ++ [Event.print (Msg.connecting path), Event.sqlOpen path true]) ⟨path⟩ = true
      · simp only [hg, Bool.not_true, Bool.false_eq_true, if_false]
        exact Or.inl ⟨_, rfl, by simp, by simp, by rw [← hw1]; simp⟩
      · simp only [Bool.not_eq_true] at hg
        simp only [hg, Bool.not_false, if_true]
        exact Or.inr ⟨_, rfl, Or.inr (by simp)⟩
    · simp only [Bool.not_eq_true] at ho
      simp only [ho, Bool.not_false, if_true]
      exact Or.inr ⟨_, rfl, Or.inl (by simp)⟩

/-- The failures of `connectDB` that return. A run that returns without the
success message leaves `db`, `dbFilePath` and the mode as they were, and the
runs that give up before opening (directory unreadable, no `.db` file,
invalid choice) are such runs; a run that does not return ends in one of the
two `log.Fatalf` calls; no run panics. -/
theorem connectDB_returns_unchanged (env : Env) (w : World) :
    (∀ w', connectDB env w = Outcome.ret () w' →
        w'.trace.getLast? ≠ some (Event.print Msg.connected) →
        w'.db = w.db ∧ w'.dbFilePath = w.dbFilePath ∧ w'.selectDB = w.selectDB) ∧
      (connectRefused env w = true →
        ∃ w', connectDB env w = Outcome.ret () w' ∧
          w'.trace.getLast? ≠ some (Event.print Msg.connected)) ∧
      (∀ w', connectDB env w = Outcome.fatal w' →
        w'.trace.getLast? = some (Event.print Msg.fatalOpen) ∨
          w'.trace.getLast? = some (Event.print Msg.fatalPing)) ∧
      (∀ w', connectDB env w ≠ Outcome.panic w') := by
  by_cases h : connectRefused env w = true
  · obtain ⟨w1, e, h1, h2, h3, h4⟩ := connectDB_refused env w h
    refine ⟨?_, ?_, ?_, ?_⟩
    · intro w' e' _
      rw [e] at e'
      cases e'
      exact ⟨h1, h2, h3⟩
    · intro _
      refine ⟨w1, e, ?_⟩
      rcases h4 with h4 | h4 | h4 <;> rw [h4] <;> simp
    · intro w' e'
      rw [e] at e'
      cases e'
    · intro w' e'
      rw [e] at e'
      cases e'
  · rcases connectDB_chosen env w (by simpa using h) with ⟨w1, e, h1, _⟩ | ⟨w1, e, h1⟩
    · refine ⟨?_, fun hr => absurd hr h, ?_, ?_⟩
      · intro w' e' hn
        rw [e] at e'
        cases e'
        exact absurd h1 hn
      · intro w' e'
        rw [e] at e'
        cases e'
      · intro w' e'
        rw [e] at e'
        cases e'
    · refine ⟨?_, fun hr => absurd hr h, ?_, ?_⟩
      · intro w' e'
        rw [e] at e'
        cases e'
      · intro w' e'
        rw [e] at e'
        cases e'
        exact h1
      · intro w' e'
        rw [e] at e'
        cases e'

/-- C2 at a failed connection check and at an open error, from the initial
session with `a.db` chosen.  The claim has `db` and `dbFilePath` as before
the call (nil and empty).  The code has assigned both before it tests the
results, and then calls `log.Fatalf`, which ends the process: the `db = nil`
and the `return` of lines 123 and 124 never run, and `connectDB` does not
return to the loop as its other failures do.  At the failed check `db` is
the new handle and `dbFilePath` the chosen path; at the open error
`dbFilePath` is the chosen path. -/
theorem connectDB_failed_ping_keeps_path :
    connectDB Env.deadDatabases (World.init ["1"]) =
        Outcome.fatal
          { selectDB := "", db := some ⟨"databases/a.db"⟩, dbFilePath := "databases/a.db",
            stdin := [],
            trace := [Event.readDir "databases" true, Event.print Msg.chooseDatabase,
              Event.print (Msg.item 1 "databases/a.db"),
              Event.print (Msg.item 2 "databases/b.db"), Event.print Msg.askDatabaseNumber,
              Event.input "1", Event.print (Msg.connecting "databases/a.db"),
              Event.sqlOpen "databases/a.db" true, Event.ping ⟨"databases/a.db"⟩ false,
              Event.print Msg.fatalPing] } ∧
      connectDB Env.lockedDatabases (World.init ["1"]) =
        Outcome.fatal
          { selectDB := "", db := none, dbFilePath := "databases/a.db", stdin := [],
            trace := [Event.readDir "databases" true, Event.print Msg.chooseDatabase,
              Event.print (Msg.item 1 "databases/a.db"),
              Event.print (Msg.item 2 "databases/b.db"), Event.print Msg.askDatabaseNumber,
              Event.input "1", Event.print (Msg.connecting "databases/a.db"),
              Event.sqlOpen "databases/a.db" false, Event.print Msg.fatalOpen] } ∧
      (World.init ["1"]).db = none ∧ (World.init ["1"]).dbFilePath = "" := by
  decide

/-! ## `executor`: the command `sqlite` -/

/-- A run of `createDatabase` starts with `os.MkdirAll` on the storage
directory, and nothing it does is an unknown-command diagnostic. -/
theorem createDatabase_trace (env : Env) (w : World) :
    ∃ rest, (createDatabase env w).trace =
        w.trace ++ Event.mkdirAll "databases" (env.mkdirAll w.trace "databases") :: rest ∧
      ∀ e ∈ rest, e.isUnknownDiagnostic = false := by
  simp only [createDatabase]
  split
  · simp [World.say, World.emit, Event.isUnknownDiagnostic]
  · split
    · simp [World.say, World.emit, promptInput, Event.isUnknownDiagnostic]
    · split
      · simp [World.say, World.emit, promptInput, Event.isUnknownDiagnostic]
      · split <;> simp [World.say, World.emit, promptInput, Event.isUnknownDiagnostic]

/-- C1, as the code has it. At the top level, when `executor` handles
`sqlite` and `connectDB` gives up before opening a database (directory
unreadable, no `.db` file, invalid choice), `executor` returns with the mode
set to `sqlite`, the connection and the path being as before; a following
`newdb` is then handled by `createDatabase`: what happens after that line is
`os.MkdirAll` on the storage directory followed by events none of which is
an unknown-command diagnostic. -/
theorem executor_sqlite_refused (env : Env) (w : World) (input : String)
    (hmode : w.selectDB = "") (hcmd : strings.TrimSpace input = "sqlite")
    (hfail : connectRefused env (w.say Msg.sqliteSelected) = true) :
    ∃ w', executor env w input = Outcome.ret () w' ∧
      w'.selectDB = "sqlite" ∧ w'.db = w.db ∧ w'.dbFilePath = w.dbFilePath ∧
      ∀ next, strings.TrimSpace next = "newdb" →
        ∃ w'' rest, executor env w' next = Outcome.ret () w'' ∧
          w'' = createDatabase env w' ∧
          w''.trace =
            w'.trace ++ Event.mkdirAll "databases" (env.mkdirAll w'.trace "databases") :: rest ∧
          (∀ e ∈ rest, e.isUnknownDiagnostic = false) ∧
          (∀ cmd, Event.print (Msg.unknownCommand cmd) ∉ rest) ∧
          (∀ cmd, Event.print (Msg.unknownSqliteCommand cmd) ∉ rest) := by
  obtain ⟨w1, e, h1, h2, _, _⟩ := connectDB_refused env (w.say Msg.sqliteSelected) hfail
  refine ⟨{ w1 with selectDB := "sqlite" }, ?_, rfl, h1, h2, ?_⟩
  · unfold executor
    simp only [hmode, hcmd, if_true, e]
  · intro next hn
    obtain ⟨rest, ht, hr⟩ := createDatabase_trace env { w1 with selectDB := "sqlite" }
    refine ⟨createDatabase env { w1 with selectDB := "sqlite" }, rest, ?_, rfl, ht, hr, ?_, ?_⟩
    · unfold executor
      simp [hn]
    · intro cmd hmem
      have := hr _ hmem
      simp [Event.isUnknownDiagnostic] at this
    · intro cmd hmem
      have := hr _ hmem
      simp [Event.isUnknownDiagnostic] at this

/-- C1, an instance: `sqlite` typed at the start with an empty storage
directory, then `newdb`. -/
theorem executor_sqlite_refused_witness :
    ∃ w', executor Env.empty (World.init []) "sqlite" = Outcome.ret () w' ∧
      w'.selectDB = "sqlite" ∧ w'.db = none ∧ w'.dbFilePath = "" ∧
      ∃ w'' rest, executor Env.empty w' "newdb" = Outcome.ret () w'' ∧
        w''.trace = w'.trace ++ Event.mkdirAll "databases" true :: rest ∧
        ∀ cmd, Event.print (Msg.unknownSqliteCommand cmd) ∉ rest :=
  have ⟨w', h⟩ := executor_sqlite_refused Env.empty (World.init []) "sqlite" rfl (by decide)
    (by decide)
  have ⟨w'', rest, k⟩ := h.2.2.2.2 "newdb" (by decide)
  ⟨w', h.1, h.2.1, h.2.2.1, h.2.2.2.1, w'', rest, k.1, k.2.2.1, k.2.2.2.2.2⟩

/-- C1, as stated, fails: from the initial session with an empty storage
directory, `sqlite` prints that there is no database and leaves the mode
`sqlite`, not the top level; the following `newdb` is not answered with an
unknown-command diagnostic but calls `os.MkdirAll` and asks for a name. -/
theorem executor_sqlite_leaves_top_level :
    ∃ w' w'', executor Env.empty (World.init ["newdb", "x"]) "sqlite" = Outcome.ret () w' ∧
      w'.trace.getLast? = some (Event.print Msg.noDatabases) ∧
      w'.selectDB = "sqlite" ∧ w'.selectDB ≠ "" ∧
      executor Env.empty w' "newdb" = Outcome.ret () w'' ∧
      Event.print (Msg.unknownCommand "newdb") ∉ w''.trace ∧
      Event.print (Msg.unknownSqliteCommand "newdb") ∉ w''.trace ∧
      Event.mkdirAll "databases" true ∈ w''.trace ∧
      Event.exec ⟨"databases/newdb.db"⟩ createTableStmt true ∈ w''.trace :=
  ⟨_, _, rfl, by decide, rfl, by decide, rfl, by decide, by decide, by decide, by decide⟩

/-! ## The loop of `main` -/

/-- The line `exit`, typed exactly so, ends the loop in either mode:
`closeDB` runs and `main` returns without a further prompt. -/
theorem mainLoop_exit (env : Env) (n : Nat) (w : World) (rest : List String)
    (h : w.stdin = "exit" :: rest) :
    mainLoop env (n + 1) w = Run.exited (closeDB env (promptInput w).2) ∧
      (closeDB env (promptInput w).2).stdin = rest ∧
      (closeDB env (promptInput w).2).db = none := by
  refine ⟨?_, ?_, closeDB_db env _⟩
  · simp [mainLoop, promptInput, h]
  · rw [closeDB_stdin]
    simp [h]

theorem closeDB_selectDB (env : Env) (w : World) :
    (closeDB env w).selectDB = w.selectDB := by
  unfold closeDB
  cases h : w.db with
  | none => rfl
  | some c =>
    simp only
    split <;> rfl

theorem closeDB_trace_mem (env : Env) (w : World) (e : Event) (he : e ∈ w.trace) :
    e ∈ (closeDB env w).trace := by
  unfold closeDB
  cases h : w.db with
  | none => simp [World.say, World.emit, he]
  | some c =>
    simp only
    split <;> simp [World.say, World.emit, he]

theorem executor_exit (env : Env) (w : World) (line : String)
    (ht : strings.TrimSpace line = "exit") (hm : w.selectDB = "" ∨ w.selectDB = "sqlite") :
    ∃ w', executor env w line = Outcome.ret () w' ∧ w'.stdin = w.stdin ∧
      w'.selectDB = w.selectDB ∧ Event.print Msg.exiting ∈ w'.trace := by
  rcases hm with hm | hm
  · refine ⟨w.say Msg.exiting, ?_, rfl, rfl, by simp⟩
    unfold executor
    simp [hm, ht]
  · refine ⟨closeDB env (w.say Msg.exiting), ?_, ?_, ?_, ?_⟩
    · unfold executor
      simp [hm, ht]
    · rw [closeDB_stdin]; rfl
    · rw [closeDB_selectDB]; rfl
    · exact closeDB_trace_mem env _ _ (by simp)

/-- A line that is not exactly `exit` but is trimmed to `exit` does not end
the loop, in either mode: `executor` prints the exit message and returns,
and the next iteration starts with the rest of the input, in the same mode. -/
theorem mainLoop_exit_padded (env : Env) (n : Nat) (w : World) (line : String)
    (rest : List String) (h : w.stdin = line :: rest) (hne : line ≠ "exit")
    (ht : strings.TrimSpace line = "exit")
    (hm : w.selectDB = "" ∨ w.selectDB = "sqlite") :
    ∃ w', executor env (promptInput w).2 line = Outcome.ret () w' ∧
      mainLoop env (n + 1) w = mainLoop env n w' ∧
      w'.stdin = rest ∧ w'.selectDB = w.selectDB ∧
      Event.print Msg.exiting ∈ w'.trace := by
  have hi : (promptInput w).1 = line := by simp [h]
  obtain ⟨w', e, h1, h2, h3⟩ := executor_exit env (promptInput w).2 line ht hm
  refine ⟨w', e, ?_, by rw [h1]; simp [h], h2, h3⟩
  rw [mainLoop]
  simp only [hi, hne, if_false, e]

/-- C5 at the lines `exit ` and ` exit`, which the dispatcher recognises as
`exit`.  In the SQLite mode `executor` prints the exit message and closes
the connection, but the loop goes on: the next prompt is read (`name`) and
answered.  At the top level the exit message is printed and the next line
(`sqlite`) is read and handled. -/
theorem exit_padded_keeps_running :
    strings.TrimSpace "exit " = "exit" ∧ strings.TrimSpace " exit" = "exit" ∧
      main Env.twoDatabases 3 ["sqlite", "1", "exit ", "name"] =
        Run.running
          { selectDB := "sqlite", db := none, dbFilePath := "databases/a.db", stdin := [],
            trace := [Event.print Msg.banner, Event.input "sqlite",
              Event.print Msg.sqliteSelected, Event.readDir "databases" true,
              Event.print Msg.chooseDatabase, Event.print (Msg.item 1 "databases/a.db"),
              Event.print (Msg.item 2 "databases/b.db"), Event.print Msg.askDatabaseNumber,
              Event.input "1", Event.print (Msg.connecting "databases/a.db"),
              Event.sqlOpen "databases/a.db" true, Event.ping ⟨"databases/a.db"⟩ true,
              Event.print Msg.connected, Event.input "exit ", Event.print Msg.exiting,
              Event.close ⟨"databases/a.db"⟩ true, Event.print Msg.closed, Event.input "name",
              Event.print
                (Msg.line "Вы сейчас работаете с базой данных: databases/a.db")] } ∧
      main Env.empty 2 [" exit", "sqlite"] =
        Run.running
          { selectDB := "sqlite", db := none, dbFilePath := "", stdin := [],
            trace := [Event.print Msg.banner, Event.input " exit", Event.print Msg.exiting,
              Event.input "sqlite", Event.print Msg.sqliteSelected,
              Event.readDir "databases" true, Event.print Msg.noDatabases] } := by
  decide

/-- C10 at the lines `sqlite`, `structure` with an empty storage directory:
`connectDB` opens nothing, the mode becomes `sqlite` with `db` nil, and
`structure` makes `listTables` call `Query` on the nil connection: the run
ends in a panic. -/
theorem structure_on_nil_connection :
    main Env.empty 2 ["sqlite", "structure"] =
      Run.panic
        { selectDB := "sqlite", db := none, dbFilePath := "", stdin := [],
          trace := [Event.print Msg.banner, Event.input "sqlite",
            Event.print Msg.sqliteSelected, Event.readDir "databases" true,
            Event.print Msg.noDatabases, Event.input "structure"] } := by
  decide

end CobraCli
